import Mathlib

/-!
Shallow embedding of the content-reconciliation engine of the pct-org
scraper (helpers `MovieHelper` and `ShowHelper`, in both the legacy and
the current revision shipped in the repository), together with theorems
settling the frozen claims about it.

Conventions used throughout:
* JavaScript `undefined` / `null` fields are modelled with `Option`;
  JS truthiness of such a field is `Option.isSome` (objects and arrays
  are always truthy in JS, including the empty array, which is why
  provider list fields are `Option (List _)` rather than bare lists).
* Promise resolution / rejection is modelled with `Except`: `.ok` is a
  resolved promise (possibly carrying `none` for `undefined`), `.error`
  a rejected one.  A thrown `TypeError` (property access on
  `undefined`) is `JsError.typeError`.
* The Mongo store is modelled as a function from document id to an
  optional document; `findOneAndUpdate(..., {upsert: true, new: true})`
  is an insert-or-replace returning the written document.
-/

namespace PctScraper

/-- Errors surfacing through the JS promise chains of the helpers. -/
inductive JsError where
  | typeError
  | api (statusCode : Nat)
  | wrapped (msg : String)
deriving DecidableEq, Repr

/-- Resolved vs rejected promise outcome. -/
def exOk {ε α : Type} (e : Except ε α) : Bool :=
  match e with
  | .ok _ => true
  | .error _ => false

/-! ### Movie torrents and the legacy `MovieHelper._updateTorrents`

Source: the legacy `MovieHelper` revision bundled in
`src/src/scraper/helpers/ShowHelper.js` (second document), function
`_updateTorrents(torrents, foundTorrents)`. -/

/-- A movie torrent entry; dedup key is `(quality, language)`. -/
structure Torrent where
  quality : String
  language : String
  url : String
  seeds : Nat
  peers : Nat
deriving DecidableEq, Repr

/-- State of the `_updateTorrents` loop.  In the source `newTorrents`
starts out as an alias of the `torrents` array (`let newTorrents =
torrents`), so a `push` onto `newTorrents` is visible to the
`torrents.find(...)` lookups until the first reassignment
(`newTorrents = newTorrents.filter(...)`) breaks the alias.  `ts` holds
the contents of the array the `torrents` binding points to, `nts` the
contents of the array `newTorrents` points to, and `shared` whether the
two bindings still point at the same array. -/
structure MergeState where
  ts : List Torrent
  nts : List Torrent
  shared : Bool
deriving Repr

/-- One iteration of `foundTorrents.forEach(torrent => ...)` in the
legacy `_updateTorrents`:

* `match` is looked up in the array the `torrents` binding points to;
* no match: `newTorrents.push(torrent)` (mutating the shared array when
  still aliased);
* a match with `match.seeds > torrent.seeds`: `newTorrents` is rebound
  to `newTorrents.filter(t => t.quality !== torrent.quality &&
  t.language !== torrent.language)` and `match` is pushed onto the new
  array. -/
def updateTorrentsStep (st : MergeState) (torrent : Torrent) : MergeState :=
  match st.ts.find? fun t => t.quality == torrent.quality && t.language == torrent.language with
  | none =>
      if st.shared then
        { ts := st.ts ++ [torrent], nts := st.nts ++ [torrent], shared := true }
      else
        { ts := st.ts, nts := st.nts ++ [torrent], shared := false }
  | some m =>
      if m.seeds > torrent.seeds then
        { ts := st.ts
          nts := (st.nts.filter fun t =>
            t.quality != torrent.quality && t.language != torrent.language) ++ [m]
          shared := false }
      else
        st

/-- Legacy `MovieHelper._updateTorrents(torrents, foundTorrents)`:
`torrents` are the incoming (freshly scraped) entries, `foundTorrents`
the stored entries of the existing movie document; returns the merged
array (`newTorrents`). -/
def _updateTorrents (torrents foundTorrents : List Torrent) : List Torrent :=
  (foundTorrents.foldl updateTorrentsStep
    { ts := torrents, nts := torrents, shared := true }).nts

/-! Concrete torrent entries used by the merge claims. -/

/-- Incoming 720p/en entry with 10 seeds (spec scenario). -/
def inc720en10 : Torrent := { quality := "720p", language := "en", url := "u-inc", seeds := 10, peers := 0 }

/-- Stored 720p/en entry with 50 seeds (spec scenario). -/
def sto720en50 : Torrent := { quality := "720p", language := "en", url := "u-sto", seeds := 50, peers := 0 }

/-- Incoming 720p/en entry with 20 seeds. -/
def inc720en20 : Torrent := { quality := "720p", language := "en", url := "u-a", seeds := 20, peers := 0 }

/-- Incoming 1080p/en entry with 5 seeds: same language as `inc720en20`
but a different quality. -/
def inc1080en5 : Torrent := { quality := "1080p", language := "en", url := "u-b", seeds := 5, peers := 0 }

/-- Stored 720p/en entry with 10 seeds. -/
def sto720en10 : Torrent := { quality := "720p", language := "en", url := "u-c", seeds := 10, peers := 0 }

/-- Stored 1080p/en entry with 5 seeds whose `(quality, language)` key
has no match in the incoming set of the C3 counterexample. -/
def sto1080en5 : Torrent := { quality := "1080p", language := "en", url := "u-d", seeds := 5, peers := 0 }

/-! ### Shows, episodes and `ShowHelper._updateEpisode(s)` / `_updateNumSeasons`

Source: `src/src/scraper/helpers/ShowHelper.js` (first document).
Only the episode fields those functions read (`season`, `episode`,
`first_aired`, `torrents[quality]`) are modelled. -/

/-- A per-quality episode torrent (`url`, `seeds` are the fields the
merge reads). -/
structure EpTorrent where
  url : String
  seeds : Nat
deriving DecidableEq, Repr

/-- One episode of a show document.  `torrents` is keyed by quality in
the source (`torrents['480p']` and so on); a missing bucket is
`none`. -/
structure Episode where
  season : Int
  episode : Int
  first_aired : Int
  torrents480 : Option EpTorrent
  torrents720 : Option EpTorrent
  torrents1080 : Option EpTorrent
deriving DecidableEq, Repr

/-- `e.torrents[quality]` for the three quality keys the source passes. -/
def Episode.torrentsAt (e : Episode) (quality : String) : Option EpTorrent :=
  if quality == "480p" then e.torrents480
  else if quality == "720p" then e.torrents720
  else if quality == "1080p" then e.torrents1080
  else none

/-- A show document, restricted to the fields `_updateEpisodes` and
`_updateNumSeasons` read or write.  `latest_episode` may be absent
(`undefined`) on a fresh draft. -/
structure Show where
  imdb_id : String
  title : String
  num_seasons : Nat
  latest_episode : Option Int
  episodes : List Episode
deriving DecidableEq, Repr

/-- JS `a > b` where `b` may be `undefined`: a comparison against
`undefined` is `NaN`-valued and therefore false. -/
def jsGtOpt (a : Int) (b : Option Int) : Bool :=
  match b with
  | none => false
  | some v => decide (v < a)

/-- JS `Array.prototype.indexOf`: index of the first equal element, or
`-1`.  (The source compares by object reference; the element searched
for is itself drawn from the list, so first-equal-index is faithful.) -/
def jsIndexOf (l : List Episode) (x : Episode) : Int :=
  match l.findIdx? fun e => e == x with
  | some n => (n : Int)
  | none => -1

/-- JS `l.splice(i, 1, x)` as used by `_updateEpisode`: replace the
element at `i` by `x`; for `i = -1` (element not found) splice starts
at the last position, dropping the last element and appending `x`. -/
def spliceReplaceOne (l : List Episode) (i : Int) (x : Episode) : List Episode :=
  if i < 0 then
    match l with
    | [] => [x]
    | _ => l.dropLast ++ [x]
  else
    l.take i.toNat ++ [x] ++ l.drop (i.toNat + 1)

/-- `ShowHelper._updateEpisode(matching, found, show, quality)`.  The
source compares `found.torrents[quality]` against
`matching.torrents[quality]` and reassigns the winner to the local
variable `matchingTorrents`, but never writes that local back into
`matching.torrents[quality]`; it then splices `matching` (unchanged)
over its own position.  The local computation is kept here to mirror
the source, and its result is unused exactly as in the source. -/
def _updateEpisode (matching found : Episode) (sh : Show) (quality : String) : Show :=
  let index := jsIndexOf sh.episodes matching
  let foundTorrents := found.torrentsAt quality
  let matchingTorrents := matching.torrentsAt quality
  let matchingTorrents :=
    match foundTorrents, matchingTorrents with
    | some ft, some mt =>
        if mt.seeds < ft.seeds ∨ ft.url = mt.url then some ft else some mt
    | some ft, none => some ft
    | none, mt => mt
  let _deadLocal := matchingTorrents
  { sh with episodes := spliceReplaceOne sh.episodes index matching }

/-- One iteration of `found.episodes.map(e => ...)` inside
`ShowHelper._updateEpisodes`: look up an incoming episode with the same
`season` and `episode`, raise `latest_episode` when the stored episode
aired later, append the stored episode when unmatched, otherwise run
`_updateEpisode` for the three quality keys. -/
def updateEpisodesLoopStep (s : Show) (e : Episode) : Show :=
  let matching := s.episodes.find? fun t => t.season == e.season && t.episode == e.episode
  let s := if jsGtOpt e.first_aired s.latest_episode then { s with latest_episode := some e.first_aired } else s
  match matching with
  | none => { s with episodes := s.episodes ++ [e] }
  | some m =>
      let s := _updateEpisode m e s "480p"
      let s := _updateEpisode m e s "720p"
      _updateEpisode m e s "1080p"

/-- The show store: documents keyed by `_id` (the show's `imdb_id`). -/
def ShowStore : Type := String → Option Show

/-- `findOneAndUpdate({_id: k}, v, {new: true, upsert: true})` /
`new Model(v).save()`: insert-or-replace the document at `k`. -/
def ShowStore.save (store : ShowStore) (k : String) (v : Show) : ShowStore :=
  fun x => if x == k then some v else store x

/-- `ShowHelper._updateNumSeasons(show)`: save the show, query the
store's distinct values of `episodes.season` for the saved document,
set `num_seasons` to their count and save again (the two-phase write),
returning the final document. -/
def _updateNumSeasons (sh : Show) (store : ShowStore) : Show × ShowStore :=
  let store1 := store.save sh.imdb_id sh
  let saved := sh
  let distinct := (saved.episodes.map Episode.season).dedup
  let saved := { saved with num_seasons := distinct.length }
  (saved, store1.save saved.imdb_id saved)

/-- `ShowHelper._updateEpisodes(show)`: first-time shows are saved and
then passed through `_updateNumSeasons`; existing shows run the episode
merge loop over the stored document's episodes before
`_updateNumSeasons`. -/
def _updateEpisodes (sh : Show) (store : ShowStore) : Show × ShowStore :=
  match store sh.imdb_id with
  | none =>
      let store1 := store.save sh.imdb_id sh
      _updateNumSeasons sh store1
  | some found =>
      let s := found.episodes.foldl updateEpisodesLoopStep sh
      _updateNumSeasons s store

/-! Concrete episode-merge inputs for the C4 claim. -/

/-- Incoming episode s1e1 whose 720p torrent has 5 seeds. -/
def epIncoming : Episode :=
  { season := 1, episode := 1, first_aired := 100,
    torrents480 := none, torrents720 := some { url := "url-incoming", seeds := 5 }, torrents1080 := none }

/-- Stored episode s1e1 whose 720p torrent has 50 seeds. -/
def epStored : Episode :=
  { season := 1, episode := 1, first_aired := 200,
    torrents480 := none, torrents720 := some { url := "url-stored", seeds := 50 }, torrents1080 := none }

/-- Incoming show draft carrying `epIncoming`. -/
def showIncoming : Show :=
  { imdb_id := "tt0001", title := "T", num_seasons := 0, latest_episode := some 0,
    episodes := [epIncoming] }

/-- Stored show document carrying `epStored`. -/
def showStored : Show :=
  { imdb_id := "tt0001", title := "T", num_seasons := 1, latest_episode := some 0,
    episodes := [epStored] }

/-- Store holding `showStored` under the incoming show's id. -/
def storeC4 : ShowStore := fun k => if k == "tt0001" then some showStored else none

/-! ### Movie image cascade

Source: `src/src/scraper/helpers/MovieHelper.js`, functions
`_addTmdbImages`, `_addOmdbImages`, `_addFanartImages`, `addImages`.
`AbstractHelper` (with `checkImages`, `_formatImdbImage` and the
`DefaultImageSizes` placeholder) is not under `src/`, so those pieces
are modelled from the spec. -/

/-- A resolved image in its four size variants. -/
structure ImageSet where
  full : String
  high : String
  medium : String
  thumb : String
deriving DecidableEq, Repr

/-- The four image slots of a record.  `none` is the
`AbstractHelper.DefaultImageSizes` placeholder sentinel (modelled from
the spec as the value the cascade's truthiness guards treat as
unset). -/
structure MovieImages where
  banner : Option ImageSet
  backdrop : Option ImageSet
  poster : Option ImageSet
  logo : Option ImageSet
deriving DecidableEq, Repr

/-- The images object with every slot still at the placeholder. -/
def MovieImages.allPlaceholder : MovieImages :=
  { banner := none, backdrop := none, poster := none, logo := none }

/-- Names of the four image slots, for stating per-field properties. -/
inductive ImgField where
  | banner
  | backdrop
  | poster
  | logo
deriving DecidableEq, Repr

/-- Slot accessor. -/
def MovieImages.get (im : MovieImages) : ImgField → Option ImageSet
  | .banner => im.banner
  | .backdrop => im.backdrop
  | .poster => im.poster
  | .logo => im.logo

/-- Rating subdocument as `getTraktInfo` builds it (the float `stars`
field is irrelevant to every claim and omitted). -/
structure Rating where
  votes : Nat
  watching : Nat
  percentage : Int
deriving DecidableEq, Repr

/-- `watched` user-state subdocument. -/
structure WatchedState where
  complete : Bool
  progress : Nat
deriving DecidableEq, Repr

/-- The Trakt cross-reference ids of a summary; each may be absent. -/
structure TraktIds where
  imdb : Option String
  tmdb : Option Nat
  tvdb : Option Nat
  slug : String
deriving DecidableEq, Repr

/-- A Trakt movie summary, restricted to the fields `getTraktInfo`
reads.  `genres` is `none` when the provider returned none (an empty
array is truthy in JS and kept as-is). -/
structure TraktMovie where
  ids : TraktIds
  title : String
  overview : String
  rating : Rat
  votes : Nat
  genres : Option (List String)
  trailer : Option String
deriving DecidableEq, Repr

/-- A movie record as built by the current `MovieHelper.getTraktInfo`
and written by `_updateMovieInDb`.  `downloaded`, `downloading` and
`downloadedOn` are absent on a fresh draft (the draft object does not
set them) and present on stored documents. -/
structure MovieRec where
  _id : String
  imdbId : String
  tmdbId : Nat
  slug : String
  title : String
  synopsis : String
  rating : Rating
  images : MovieImages
  genres : List String
  trailer : Option String
  createdAt : Int
  updatedAt : Int
  torrents : Option (List Torrent)
  watched : WatchedState
  bookmarked : Bool
  bookmarkedOn : Option Int
  downloaded : Option Bool
  downloading : Option Bool
  downloadedOn : Option Int
deriving DecidableEq, Repr

/-- Modelled from the spec: `AbstractHelper.checkImages` is not under
`src/`.  Per the spec's cascade, a step hands the item on to the next
provider while any image slot is still the placeholder: `checkImages`
resolves the item when all four slots are filled and rejects with the
item itself otherwise (the item carries its ids, which is what the
`err.tmdbId` / `err.imdbId` catch guards test before re-rejecting). -/
def checkImages (m : MovieRec) : Except MovieRec MovieRec :=
  if m.images.banner.isSome && m.images.backdrop.isSome
      && m.images.poster.isSome && m.images.logo.isSome then
    .ok m
  else
    .error m

/-- Modelled from the spec: `AbstractHelper._formatImdbImage` is not
under `src/`; it builds the four TMDB size variants from a file
path. -/
def _formatImdbImage (path : String) : ImageSet :=
  { full := "https://image.tmdb.org/t/p/original" ++ path
    high := "https://image.tmdb.org/t/p/w1280" ++ path
    medium := "https://image.tmdb.org/t/p/w780" ++ path
    thumb := "https://image.tmdb.org/t/p/w342" ++ path }

/-- One entry of a TMDB images response. -/
structure TmdbImageEntry where
  iso_639_1 : Option String
  file_path : String
  width : Nat
deriving DecidableEq, Repr

/-- TMDB movie-images response. -/
structure TmdbImagesResp where
  posters : List TmdbImageEntry
  backdrops : List TmdbImageEntry
deriving DecidableEq, Repr

/-- OMDB by-id response; `Poster` may be missing. -/
structure OmdbResp where
  Poster : Option String
deriving DecidableEq, Repr

/-- One Fanart entry. -/
structure FanartEntry where
  url : String
deriving DecidableEq, Repr

/-- Fanart movie-images response; each list field may be absent
entirely (`none`), and a present empty list is truthy in JS. -/
structure FanartMovieResp where
  moviebanner : Option (List FanartEntry)
  moviebackground : Option (List FanartEntry)
  hdmovieclearart : Option (List FanartEntry)
  movieposter : Option (List FanartEntry)
  movielogo : Option (List FanartEntry)
  hdmovielogo : Option (List FanartEntry)
deriving DecidableEq, Repr

/-- The `{full, high, medium, thumb}` object the source builds from a
single URL. -/
def fourWay (u : String) : ImageSet :=
  { full := u, high := u, medium := u, thumb := u }

/-- JS truthiness of an optional string (`undefined` and the empty
string are falsy). -/
def jsTruthyStr (s : Option String) : Bool :=
  match s with
  | none => false
  | some v => v != ""

/-- `MovieHelper._addTmdbImages(movie)`: filter posters/backdrops to
entries tagged `en` or untagged, take the first of each (`shift()`),
rebuild the images object (banner and logo reset to the placeholder)
and run `checkImages`.  A provider error and a `checkImages` rejection
both surface as a rejection carrying the movie, which is what the
`catch` re-rejects in every branch. -/
def _addTmdbImages (resp : Except JsError TmdbImagesResp) (movie : MovieRec) :
    Except MovieRec MovieRec :=
  match resp with
  | .error _ => .error movie
  | .ok i =>
      let tmdbPoster := (i.posters.filter fun p =>
        p.iso_639_1 == some "en" || p.iso_639_1 == none).head?
      let tmdbBackdrop := (i.backdrops.filter fun b =>
        b.iso_639_1 == some "en" || b.iso_639_1 == none).head?
      checkImages
        { movie with
          images :=
            { banner := none
              backdrop := tmdbBackdrop.map fun b => _formatImdbImage b.file_path
              poster := tmdbPoster.map fun p => _formatImdbImage p.file_path
              logo := none } }

/-- `MovieHelper._addOmdbImages(movie)`: reject immediately when the
poster is already resolved; otherwise fill only the poster, and only
when it is still the placeholder and OMDB returned a truthy value. -/
def _addOmdbImages (resp : Except JsError OmdbResp) (movie : MovieRec) :
    Except MovieRec MovieRec :=
  if movie.images.poster.isSome then
    .error movie
  else
    match resp with
    | .error _ => .error movie
    | .ok i =>
        checkImages
          { movie with
            images :=
              { banner := movie.images.banner
                backdrop := movie.images.backdrop
                poster :=
                  if movie.images.poster.isNone && jsTruthyStr i.Poster then
                    some (fourWay (i.Poster.getD ""))
                  else
                    movie.images.poster
                logo := movie.images.logo } }

/-- `MovieHelper._addFanartImages(movie)`: pick each candidate with the
source's `!movie.images.x && i.list ? i.list.shift() : ...` chains
(an absent list field is falsy, a present empty list truthy with
`shift()` yielding `undefined`), then keep every slot whose candidate
is null. -/
def _addFanartImages (resp : Except JsError FanartMovieResp) (movie : MovieRec) :
    Except MovieRec MovieRec :=
  match resp with
  | .error _ => .error movie
  | .ok i =>
      let banner :=
        if movie.images.banner.isNone && i.moviebanner.isSome then
          (i.moviebanner.getD []).head?
        else
          none
      let backdrop :=
        if movie.images.backdrop.isNone && i.moviebackground.isSome then
          (i.moviebackground.getD []).head?
        else if movie.images.backdrop.isNone && i.hdmovieclearart.isSome then
          (i.hdmovieclearart.getD []).head?
        else
          none
      let poster :=
        if movie.images.poster.isNone && i.movieposter.isSome then
          (i.movieposter.getD []).head?
        else
          none
      let logo :=
        if movie.images.logo.isNone && i.movielogo.isSome then
          (i.movielogo.getD []).head?
        else if movie.images.logo.isNone && i.hdmovielogo.isSome then
          (i.hdmovielogo.getD []).head?
        else
          none
      checkImages
        { movie with
          images :=
            { banner :=
                match banner with
                | some b => some (fourWay b.url)
                | none => movie.images.banner
              backdrop :=
                match backdrop with
                | some b => some (fourWay b.url)
                | none => movie.images.backdrop
              poster :=
                match poster with
                | some p => some (fourWay p.url)
                | none => movie.images.poster
              logo :=
                match logo with
                | some l => some (fourWay l.url)
                | none => movie.images.logo } }

/-- The movie carried by a step outcome, resolved or rejected: the
rejected movie is what the next `catch` in `addImages` receives, the
resolved one is the final result. -/
def stepOut (r : Except MovieRec MovieRec) : MovieRec :=
  match r with
  | .ok m => m
  | .error m => m

/-- `MovieHelper.addImages(movie)`: the promise chain
`_addTmdbImages(movie).catch(m => _addOmdbImages(m)).catch(m =>
_addFanartImages(m)).catch(m => m)` — each step runs only when the
previous one rejected, and the trailing catch makes the cascade
total. -/
def addImages (tmdbR : Except JsError TmdbImagesResp) (omdbR : Except JsError OmdbResp)
    (fanartR : Except JsError FanartMovieResp) (movie : MovieRec) : MovieRec :=
  match _addTmdbImages tmdbR movie with
  | .ok m => m
  | .error m1 =>
      match _addOmdbImages omdbR m1 with
      | .ok m => m
      | .error m2 => stepOut (_addFanartImages fanartR m2)

/-! ### `MovieHelper.getTraktInfo` (current revision)

Source: `src/src/scraper/helpers/MovieHelper.js`.  The two provider
calls (summary, watching) are passed in as promise outcomes; wall-clock
time (`Number(new Date())`) is the `now` parameter. -/

/-- JS `Math.round` on a rational (round half toward positive
infinity). -/
def jsRound (q : Rat) : Int := (q + 1/2).floor

/-- The error built in `getTraktInfo`'s catch block: the original error
is wrapped into a new `Error(message)`, with a dedicated message for a
404 from the summary call. -/
def wrapGetTraktInfoErr (e : JsError) : JsError :=
  match e with
  | .api 404 => .wrapped "getTraktInfo: Could not find any data with slug"
  | _ => .wrapped "getTraktInfo"

/-- The draft record `getTraktInfo` assembles before handing it to
`addImages`: images all placeholder, empty torrents, fresh user-state
fields, `watching` degraded to `0` when the watching call resolved with
nothing. -/
def mkMovieDraft (now : Int) (tm : TraktMovie) (watchers : Option Nat) : MovieRec :=
  { _id := tm.ids.imdb.getD ""
    imdbId := tm.ids.imdb.getD ""
    tmdbId := tm.ids.tmdb.getD 0
    slug := tm.ids.slug
    title := tm.title
    synopsis := tm.overview
    rating :=
      { votes := tm.votes
        watching := watchers.getD 0
        percentage := jsRound (tm.rating * 10) }
    images := MovieImages.allPlaceholder
    genres := tm.genres.getD ["unknown"]
    trailer := tm.trailer
    createdAt := now
    updatedAt := now
    torrents := some []
    watched := { complete := false, progress := 0 }
    bookmarked := false
    bookmarkedOn := none
    downloaded := none
    downloading := none
    downloadedOn := none }

/-- `MovieHelper.getTraktInfo(traktSlug)`: a rejected summary or
watching call is caught and re-rejected wrapped; a summary that is
absent or misses the primary (`imdb`) or secondary (`tmdb`) id makes
the function fall off the `try` block and resolve with `undefined`;
otherwise the draft goes through `addImages`, which never fails.  The
tertiary (`tvdb`) id is never consulted. -/
def movieGetTraktInfo (now : Int) (summaryR : Except JsError (Option TraktMovie))
    (watchersR : Except JsError (Option Nat)) (tmdbR : Except JsError TmdbImagesResp)
    (omdbR : Except JsError OmdbResp) (fanartR : Except JsError FanartMovieResp) :
    Except JsError (Option MovieRec) :=
  match summaryR with
  | .error e => .error (wrapGetTraktInfoErr e)
  | .ok traktMovie =>
      match watchersR with
      | .error e => .error (wrapGetTraktInfoErr e)
      | .ok traktWatchers =>
          match traktMovie with
          | none => .ok none
          | some tm =>
              if tm.ids.imdb.isSome && tm.ids.tmdb.isSome then
                .ok (some (addImages tmdbR omdbR fanartR (mkMovieDraft now tm traktWatchers)))
              else
                .ok none

/-! ### Legacy `ShowHelper` image pipeline and `getTraktInfo`

Source: `src/src/scraper/helpers/ShowHelper.js` (first document),
functions `_getTmdbImages`, `_getFanartImages`, `getImages`,
`getTraktInfo`. -/

/-- The object `_getTmdbImages` resolves with. -/
structure TvImages where
  backdrop : Option String
  poster : Option String
deriving DecidableEq, Repr

/-- `ShowHelper._getTmdbImages(tmdbId)`: filter posters/backdrops to
entries tagged `en` or untagged and take the first of each.  When a
filtered list is empty, `[0]` is `undefined` and the immediate
`.file_path` access throws a `TypeError` — before the `poster ? ... :
null` / `backdrop ? ... : null` guards further down can apply, so the
successful path always yields resolved URLs. -/
def _getTmdbImages (resp : Except JsError TmdbImagesResp) : Except JsError TvImages :=
  match resp with
  | .error e => .error e
  | .ok i =>
      let poster := (i.posters.filter fun p =>
        p.iso_639_1 == some "en" || p.iso_639_1 == none).head?
      match poster with
      | none => .error .typeError
      | some p =>
          let backdrop := (i.backdrops.filter fun b =>
            b.iso_639_1 == some "en" || b.iso_639_1 == none).head?
          match backdrop with
          | none => .error .typeError
          | some b =>
              .ok
                { backdrop := some ("http://image.tmdb.org/t/p/w" ++ toString b.width ++ b.file_path)
                  poster := some ("http://image.tmdb.org/t/p/w" ++ toString p.width ++ p.file_path) }

/-- Fanart TV response; each list field may be absent. -/
structure FanartShowResp where
  showbackground : Option (List FanartEntry)
  tvposter : Option (List FanartEntry)
  hdtvlogo : Option (List FanartEntry)
  tvthumb : Option (List FanartEntry)
deriving DecidableEq, Repr

/-- The images object the legacy show pipeline resolves with. -/
structure ShowImages where
  backdrop : Option String
  poster : Option String
  logo : Option String
  thumb : Option String
deriving DecidableEq, Repr

/-- `ShowHelper._getFanartImages(tvdbId)`: dereferences
`i.showbackground[0].url` (and the three siblings) without any guard,
so an absent or empty list throws a `TypeError`. -/
def _getFanartImages (resp : Except JsError FanartShowResp) : Except JsError ShowImages :=
  match resp with
  | .error e => .error e
  | .ok i =>
      match i.showbackground.bind List.head? with
      | none => .error .typeError
      | some b =>
          match i.tvposter.bind List.head? with
          | none => .error .typeError
          | some p =>
              match i.hdtvlogo.bind List.head? with
              | none => .error .typeError
              | some l =>
                  match i.tvthumb.bind List.head? with
                  | none => .error .typeError
                  | some t =>
                      .ok
                        { backdrop := some b.url, poster := some p.url,
                          logo := some l.url, thumb := some t.url }

/-- `ShowHelper.getImages({tmdbId, tvdbId})`: await the TMDB images,
then the Fanart images (either rejection propagates — there is no
catch), then prefer the TMDB backdrop/poster when non-null. -/
def showGetImages (tmdbR : Except JsError TmdbImagesResp)
    (fanartR : Except JsError FanartShowResp) : Except JsError ShowImages :=
  match _getTmdbImages tmdbR with
  | .error e => .error e
  | .ok tmdbImages =>
      match _getFanartImages fanartR with
      | .error e => .error e
      | .ok images =>
          let images :=
            if tmdbImages.backdrop.isSome then { images with backdrop := tmdbImages.backdrop }
            else images
          let images :=
            if tmdbImages.poster.isSome then { images with poster := tmdbImages.poster }
            else images
          .ok images

/-- A Trakt show summary, restricted to the fields the legacy
`getTraktInfo` reads. -/
structure TraktShow where
  ids : TraktIds
  title : String
  overview : String
  rating : Rat
  votes : Nat
  genres : Option (List String)
deriving DecidableEq, Repr

/-- The show object the legacy `getTraktInfo` resolves with (fields not
touched by any claim are omitted). -/
structure TraktShowRec where
  imdb_id : String
  tmdb_id : Nat
  title : String
  rating : Rating
  images : ShowImages
  genres : List String
  tvdb_id : Nat
deriving DecidableEq, Repr

/-- Legacy `ShowHelper.getTraktInfo(slug)`: a rejected provider call is
caught and re-rejected unchanged; a `null` summary throws a `TypeError`
at the `const { imdb, tmdb, tvdb } = traktShow.ids` destructuring
(caught and re-rejected); when any of the three ids is missing the
guarded `return` is skipped and the function falls off the `try` block,
resolving with `undefined`; otherwise the images are awaited inside the
returned object (an image failure therefore rejects the whole
fetch). -/
def showGetTraktInfo (summaryR : Except JsError (Option TraktShow))
    (watchersR : Except JsError (Option Nat)) (tmdbR : Except JsError TmdbImagesResp)
    (fanartR : Except JsError FanartShowResp) : Except JsError (Option TraktShowRec) :=
  match summaryR with
  | .error e => .error e
  | .ok traktShow =>
      match watchersR with
      | .error e => .error e
      | .ok traktWatchers =>
          match traktShow with
          | none => .error .typeError
          | some ts =>
              if ts.ids.imdb.isSome && ts.ids.tmdb.isSome && ts.ids.tvdb.isSome then
                match showGetImages tmdbR fanartR with
                | .error e => .error e
                | .ok imgs =>
                    .ok (some
                      { imdb_id := ts.ids.imdb.getD ""
                        tmdb_id := ts.ids.tmdb.getD 0
                        title := ts.title
                        rating :=
                          { votes := ts.votes
                            watching := traktWatchers.getD 0
                            percentage := jsRound (ts.rating * 10) }
                        images := imgs
                        genres := ts.genres.getD ["unknown"]
                        tvdb_id := ts.ids.tvdb.getD 0 })
              else
                .ok none

/-! ### `MovieHelper._updateMovieInDb` (current revision)

Source: `src/src/scraper/helpers/MovieHelper.js`. -/

/-- The movie store keyed by `_id`. -/
def MovieStore : Type := String → Option MovieRec

/-- Insert-or-replace a movie document. -/
def MovieStore.save (store : MovieStore) (k : String) (v : MovieRec) : MovieStore :=
  fun x => if x == k then some v else store x

/-- Modelled from the spec: `AbstractHelper._formatTorrents` is not
under `src/`.  The spec's TorrentMerger contract: start from the
incoming set; a stored entry whose `(quality, language)` key has no
incoming match is added; a stored entry with strictly more seeds
replaces the incoming match, removing only the entry matching both
quality and language. -/
def _formatTorrents (torrents foundTorrents : List Torrent) : List Torrent :=
  foundTorrents.foldl
    (fun acc torrent =>
      match torrents.find? fun t =>
          t.quality == torrent.quality && t.language == torrent.language with
      | none => acc ++ [torrent]
      | some m =>
          if m.seeds < torrent.seeds then
            (acc.filter fun t =>
              !(t.quality == torrent.quality && t.language == torrent.language)) ++ [torrent]
          else
            acc)
    torrents

/-- `MovieHelper._updateMovieInDb(movie)`: look up the stored document
by `_id`.  When present, merge the torrents (the `if (found.torrents)`
truthiness guard is `isSome`; the incoming `movie.torrents` is always
an array on this path, set by `addTorrents`), copy `createdAt` and the
user-state fields from the found document onto the incoming one, and
upsert the result; when absent, save the incoming document as-is. -/
def _updateMovieInDb (movie : MovieRec) (store : MovieStore) : MovieRec × MovieStore :=
  match store movie._id with
  | some found =>
      let m := movie
      let m :=
        match found.torrents with
        | some ft => { m with torrents := some (_formatTorrents (m.torrents.getD []) ft) }
        | none => m
      let m :=
        { m with
          createdAt := found.createdAt
          bookmarked := found.bookmarked
          bookmarkedOn := found.bookmarkedOn
          watched := found.watched
          downloaded := found.downloaded
          downloading := found.downloading
          downloadedOn := found.downloadedOn }
      (m, store.save m._id m)
  | none => (movie, store.save movie._id movie)

/-! Concrete provider data for the metadata, image and upsert claims. -/

/-- Show summary missing only the tertiary (`tvdb`) artwork id. -/
def summaryNoTvdb : TraktShow :=
  { ids := { imdb := some "tt0100", tmdb := some 42, tvdb := none, slug := "some-show" }
    title := "S", overview := "o", rating := 8, votes := 10, genres := some ["drama"] }

/-- Movie summary carrying primary and secondary ids but no tertiary
artwork id. -/
def movieNoTvdb : TraktMovie :=
  { ids := { imdb := some "tt0200", tmdb := some 7, tvdb := none, slug := "some-movie" }
    title := "M", overview := "o", rating := 8, votes := 3, genres := none, trailer := none }

/-- Show summary carrying all three ids. -/
def summaryAllIds : TraktShow :=
  { ids := { imdb := some "tt0300", tmdb := some 9, tvdb := some 77, slug := "full-show" }
    title := "SH", overview := "o", rating := 8, votes := 5, genres := some ["drama"] }

/-- TMDB images response whose en-or-untagged poster and backdrop
filters are both empty: the only poster is tagged `de`. -/
def tvImagesDe : TmdbImagesResp :=
  { posters := [{ iso_639_1 := some "de", file_path := "/p.jpg", width := 500 }]
    backdrops := [] }

/-- A fully populated Fanart show response. -/
def fanartShowOk : FanartShowResp :=
  { showbackground := some [{ url := "fan-backdrop" }]
    tvposter := some [{ url := "fan-poster" }]
    hdtvlogo := some [{ url := "fan-logo" }]
    tvthumb := some [{ url := "fan-thumb" }] }

/-- TMDB movie-images response carrying only a poster (the primary
provider of the C6 scenario). -/
def tmdbPosterOnly : TmdbImagesResp :=
  { posters := [{ iso_639_1 := none, file_path := "/tp.jpg", width := 500 }]
    backdrops := [] }

/-- Fanart movie response carrying a poster and a background (the
fallback provider of the C6 scenario). -/
def fanartPosterBackdrop : FanartMovieResp :=
  { moviebanner := none
    moviebackground := some [{ url := "fan-bg" }]
    hdmovieclearart := none
    movieposter := some [{ url := "fan-po" }]
    movielogo := none
    hdmovielogo := none }

/-- An all-placeholder draft movie record, as `getTraktInfo` builds it. -/
def movieDraftC6 : MovieRec := mkMovieDraft 0 movieNoTvdb none

/-- Incoming movie record for the C9 upsert claim. -/
def movieIncomingC9 : MovieRec := mkMovieDraft 1000 movieNoTvdb (some 2)

/-- Stored movie document for the C9 upsert claim, with user-state
fields differing from the incoming draft's. -/
def movieFoundC9 : MovieRec :=
  { movieIncomingC9 with
    createdAt := 500
    bookmarked := true
    bookmarkedOn := some 600
    watched := { complete := true, progress := 100 }
    downloaded := some true
    downloading := some false
    downloadedOn := some 700
    torrents := some [sto720en50] }

/-- Store holding `movieFoundC9` under the incoming record's id. -/
def storeC9 : MovieStore :=
  fun k => if k == "tt0200" then some movieFoundC9 else none

end PctScraper

namespace PctScraper

/-- C1: on the spec scenario (stored 720p/en with 50 seeds vs incoming
720p/en with 10 seeds) the merged set returned by `_updateTorrents`
keeps the 10-seed incoming entry and drops the 50-seed stored entry:
the branch for a stored entry with strictly more seeds does nothing, so
the stored entry never replaces the incoming one, contradicting the
claimed seed tie-break. -/
theorem c1_stored_better_entry_is_discarded :
    _updateTorrents [inc720en10] [sto720en50] = [inc720en10] ∧
      sto720en50 ∉ _updateTorrents [inc720en10] [sto720en50] := by
  decide

/-- C2: the removal step of the replacement branch is disjunctive, not
conjunctive.  With incoming entries 720p/en (20 seeds) and 1080p/en
(5 seeds) and a stored 720p/en entry with 10 seeds, the replacement
branch fires and its filter also deletes the unrelated 1080p/en entry,
which matches the stored entry's language only — an entry with a
different quality does not survive the removal step. -/
theorem c2_removal_filter_is_disjunctive :
    _updateTorrents [inc720en20, inc1080en5] [sto720en10] = [inc720en20] ∧
      inc1080en5 ∉ _updateTorrents [inc720en20, inc1080en5] [sto720en10] := by
  decide

/-- C3: a stored entry whose `(quality, language)` key is absent from
the incoming set can still be lost.  The stored 1080p/en entry is first
re-added (no incoming 1080p/en match), but the later replacement branch
for the stored 720p/en entry filters it out again because it shares the
language, so it is missing from the merged result. -/
theorem c3_unmatched_stored_entry_is_lost :
    _updateTorrents [inc720en20] [sto1080en5, sto720en10] = [inc720en20] ∧
      sto1080en5 ∉ _updateTorrents [inc720en20] [sto1080en5, sto720en10] := by
  decide

/-- Helper: the document returned by `_updateNumSeasons` is the one
persisted under its id, and its `num_seasons` is the count of distinct
season values of its own episodes. -/
theorem updateNumSeasons_spec (s : Show) (st : ShowStore) :
    (_updateNumSeasons s st).2 (_updateNumSeasons s st).1.imdb_id
        = some (_updateNumSeasons s st).1 ∧
      (_updateNumSeasons s st).1.num_seasons
        = ((_updateNumSeasons s st).1.episodes.map Episode.season).dedup.length := by
  refine ⟨?_, ?_⟩
  · simp [_updateNumSeasons, ShowStore.save]
  · simp [_updateNumSeasons]

/-- C7: after every `_updateEpisodes` run — the first-time two-phase
save of a new show as well as the merge of an existing one — the
document persisted under the returned show's id is that show, and its
`num_seasons` equals the number of distinct season numbers among its
episodes, recomputed from the saved record rather than hand-set (the
input's `num_seasons` is arbitrary here). -/
theorem c7_numSeasons_recomputed (sh : Show) (store : ShowStore) :
    (_updateEpisodes sh store).2 (_updateEpisodes sh store).1.imdb_id
        = some (_updateEpisodes sh store).1 ∧
      (_updateEpisodes sh store).1.num_seasons
        = ((_updateEpisodes sh store).1.episodes.map Episode.season).dedup.length := by
  rcases hstore : store sh.imdb_id with _ | found <;>
    simp only [_updateEpisodes, hstore] <;>
    exact updateNumSeasons_spec _ _

/-- C4: the per-quality reconciliation of `_updateEpisode` assigns the
winning torrent only to a local variable and never writes it back into
the episode, so the episode spliced into `show.episodes` is the
incoming one unchanged.  On a stored episode whose 720p torrent has 50
seeds against an incoming 5-seed torrent, the merged show still carries
the 5-seed incoming torrent, contradicting the claimed replacement. -/
theorem c4_stored_better_torrent_not_written_back :
    (_updateEpisodes showIncoming storeC4).1.episodes = [epIncoming] ∧
      (epStored.torrentsAt "720p").map EpTorrent.seeds = some 50 ∧
      (epIncoming.torrentsAt "720p").map EpTorrent.seeds = some 5 := by
  decide

/-- Helper: `checkImages` hands back its argument whether it resolves
or rejects. -/
theorem stepOut_checkImages (m : MovieRec) : stepOut (checkImages m) = m := by
  unfold checkImages
  split <;> rfl

/-- Helper: the TMDB step always rejects: it rebuilds the images object
with the banner at the placeholder, so `checkImages` never passes. -/
theorem addTmdbImages_rejects (r : Except JsError TmdbImagesResp) (m : MovieRec) :
    _addTmdbImages r m = .error (stepOut (_addTmdbImages r m)) := by
  cases r with
  | error e => rfl
  | ok i => simp [_addTmdbImages, checkImages, stepOut]

/-- Helper: the movie coming out of the TMDB step has a placeholder
banner whenever it went in with one. -/
theorem addTmdbImages_banner (r : Except JsError TmdbImagesResp) (m : MovieRec)
    (hb : m.images.banner = none) :
    (stepOut (_addTmdbImages r m)).images.banner = none := by
  cases r with
  | error e => simpa [_addTmdbImages, stepOut] using hb
  | ok i =>
      simp only [_addTmdbImages]
      rw [stepOut_checkImages]

/-- Helper: with a placeholder banner the OMDB step always rejects
(its images object keeps the banner, so `checkImages` never passes). -/
theorem addOmdbImages_rejects (r : Except JsError OmdbResp) (m : MovieRec)
    (hb : m.images.banner = none) :
    _addOmdbImages r m = .error (stepOut (_addOmdbImages r m)) := by
  unfold _addOmdbImages
  split
  · rfl
  · cases r with
    | error e => rfl
    | ok i => simp [checkImages, stepOut, hb]

/-- Helper: the OMDB step never touches an already-resolved slot. -/
theorem addOmdbImages_preserves (r : Except JsError OmdbResp) (m : MovieRec)
    (f : ImgField) (v : ImageSet) (h : m.images.get f = some v) :
    (stepOut (_addOmdbImages r m)).images.get f = some v := by
  unfold _addOmdbImages
  split
  · simpa [stepOut] using h
  · cases r with
    | error e => simpa [stepOut] using h
    | ok i =>
        rw [stepOut_checkImages]
        cases f <;> simp_all [MovieImages.get]

/-- Helper: the Fanart step never touches an already-resolved slot. -/
theorem addFanartImages_preserves (r : Except JsError FanartMovieResp) (m : MovieRec)
    (f : ImgField) (v : ImageSet) (h : m.images.get f = some v) :
    (stepOut (_addFanartImages r m)).images.get f = some v := by
  cases r with
  | error e => simpa [_addFanartImages, stepOut] using h
  | ok i =>
      cases f <;> simp_all [_addFanartImages, stepOut_checkImages, MovieImages.get]

/-- Helper: with a placeholder banner the cascade always reaches the
Fanart step, so `addImages` is the three steps chained on the carried
movie. -/
theorem addImages_eq_chain (tR : Except JsError TmdbImagesResp) (oR : Except JsError OmdbResp)
    (fR : Except JsError FanartMovieResp) (m : MovieRec) (hb : m.images.banner = none) :
    addImages tR oR fR m
      = stepOut (_addFanartImages fR
          (stepOut (_addOmdbImages oR (stepOut (_addTmdbImages tR m))))) := by
  unfold addImages
  rcases h1 : _addTmdbImages tR m with m1 | m1
  · have hb1 : m1.images.banner = none := by
      have hban := addTmdbImages_banner tR m hb
      rw [h1] at hban
      simpa [stepOut] using hban
    dsimp only [stepOut]
    rcases h2 : _addOmdbImages oR m1 with m2 | m2
    · dsimp only [stepOut]
    · have hrej := addOmdbImages_rejects oR m1 hb1
      rw [h2] at hrej
      simp [stepOut] at hrej
  · have hrej := addTmdbImages_rejects tR m
    rw [h1] at hrej
    simp [stepOut] at hrej

/-- C6: the image cascade's precedence invariant.  Starting from an
all-placeholder draft (as `getTraktInfo` builds it), any slot value
already present after the first provider (TMDB) is exactly the value of
that slot in the final `addImages` result — neither OMDB nor Fanart
changes it, whatever they return — and likewise any slot value present
after the second provider (OMDB) survives the Fanart step.  Slots a
later provider does fill are therefore exactly the ones still at the
placeholder. -/
theorem c6_image_cascade_precedence (tR : Except JsError TmdbImagesResp)
    (oR : Except JsError OmdbResp) (fR : Except JsError FanartMovieResp)
    (movie : MovieRec) (hm : movie.images = MovieImages.allPlaceholder)
    (f : ImgField) (v : ImageSet) :
    ((stepOut (_addTmdbImages tR movie)).images.get f = some v →
        (addImages tR oR fR movie).images.get f = some v)
    ∧ ((stepOut (_addOmdbImages oR (stepOut (_addTmdbImages tR movie)))).images.get f = some v →
        (addImages tR oR fR movie).images.get f = some v) := by
  have hb : movie.images.banner = none := by rw [hm]; rfl
  rw [addImages_eq_chain tR oR fR movie hb]
  constructor
  · intro h
    exact addFanartImages_preserves _ _ _ _ (addOmdbImages_preserves _ _ _ _ h)
  · intro h
    exact addFanartImages_preserves _ _ _ _ h

/-- Witness for C6, on the spec's scenario: the primary provider
returns only a poster and the fallback returns poster and backdrop;
the final record has the primary's poster (and, by direct evaluation,
the fallback's backdrop). -/
theorem c6_image_cascade_precedence_witness :
    movieDraftC6.images = MovieImages.allPlaceholder
    ∧ (addImages (.ok tmdbPosterOnly) (.error (.api 404)) (.ok fanartPosterBackdrop)
          movieDraftC6).images.get .poster = some (_formatImdbImage "/tp.jpg")
    ∧ (addImages (.ok tmdbPosterOnly) (.error (.api 404)) (.ok fanartPosterBackdrop)
          movieDraftC6).images.get .backdrop = some (fourWay "fan-bg") := by
  refine ⟨rfl, ?_, ?_⟩
  · exact (c6_image_cascade_precedence (.ok tmdbPosterOnly) (.error (.api 404))
      (.ok fanartPosterBackdrop) movieDraftC6 rfl .poster (_formatImdbImage "/tp.jpg")).1 rfl
  · rfl

/-- Helper: the TMDB step only rewrites the images object. -/
theorem stepOut_addTmdbImages_rating (r : Except JsError TmdbImagesResp) (m : MovieRec) :
    (stepOut (_addTmdbImages r m)).rating = m.rating := by
  cases r with
  | error e => rfl
  | ok i =>
      simp only [_addTmdbImages]
      rw [stepOut_checkImages]

/-- Helper: the OMDB step only rewrites the images object. -/
theorem stepOut_addOmdbImages_rating (r : Except JsError OmdbResp) (m : MovieRec) :
    (stepOut (_addOmdbImages r m)).rating = m.rating := by
  unfold _addOmdbImages
  split
  · rfl
  · cases r with
    | error e => rfl
    | ok i => rw [stepOut_checkImages]

/-- Helper: the Fanart step only rewrites the images object. -/
theorem stepOut_addFanartImages_rating (r : Except JsError FanartMovieResp) (m : MovieRec) :
    (stepOut (_addFanartImages r m)).rating = m.rating := by
  cases r with
  | error e => rfl
  | ok i =>
      simp only [_addFanartImages]
      rw [stepOut_checkImages]

/-- Helper: the whole cascade leaves the rating subdocument of the
draft untouched. -/
theorem addImages_rating (tR : Except JsError TmdbImagesResp) (oR : Except JsError OmdbResp)
    (fR : Except JsError FanartMovieResp) (m : MovieRec) :
    (addImages tR oR fR m).rating = m.rating := by
  unfold addImages
  have t1 := stepOut_addTmdbImages_rating tR m
  rcases h1 : _addTmdbImages tR m with m1 | m1
  · rw [h1] at t1
    dsimp only [stepOut] at t1
    dsimp only
    have t2 := stepOut_addOmdbImages_rating oR m1
    rcases h2 : _addOmdbImages oR m1 with m2 | m2
    · rw [h2] at t2
      dsimp only [stepOut] at t2
      dsimp only
      rw [stepOut_addFanartImages_rating, t2, t1]
    · rw [h2] at t2
      dsimp only [stepOut] at t2
      dsimp only
      rw [t2, t1]
  · rw [h1] at t1
    dsimp only [stepOut] at t1
    dsimp only
    exact t1

/-- C5 counterexample: a show summary present but missing only the
tertiary (`tvdb`) artwork id makes the legacy `getTraktInfo` resolve
with `undefined` — it does not fail with a rejection, contradicting the
claim that any missing cross-id yields a propagated NotFound-style
failure. -/
theorem c5_missing_tvdb_still_resolves :
    showGetTraktInfo (.ok (some summaryNoTvdb)) (.ok none) (.ok tvImagesDe) (.ok fanartShowOk)
      = .ok none := by
  rfl

/-- C5 (amended): an absent summary rejects the show fetch (the id
destructuring throws a `TypeError`, caught and re-rejected); a present
summary missing any of the three ids makes the show fetch resolve with
no record instead of rejecting; and the movie fetch checks only the
primary and secondary ids, so a summary carrying those two resolves
with a record regardless of the tertiary artwork id. -/
theorem c5_id_check_failure_resolves_undefined (w : Option Nat)
    (tR : Except JsError TmdbImagesResp) (fR : Except JsError FanartShowResp)
    (ts : TraktShow)
    (h : ts.ids.imdb.isNone ∨ ts.ids.tmdb.isNone ∨ ts.ids.tvdb.isNone)
    (now : Int) (oR : Except JsError OmdbResp) (fmR : Except JsError FanartMovieResp)
    (tm : TraktMovie) (hb : tm.ids.imdb.isSome = true) (hc : tm.ids.tmdb.isSome = true) :
    showGetTraktInfo (.ok none) (.ok w) tR fR = .error .typeError
    ∧ showGetTraktInfo (.ok (some ts)) (.ok w) tR fR = .ok none
    ∧ movieGetTraktInfo now (.ok (some tm)) (.ok w) tR oR fmR
        = .ok (some (addImages tR oR fmR (mkMovieDraft now tm w))) := by
  refine ⟨rfl, ?_, ?_⟩
  · rcases h with h | h | h <;>
      rw [Option.isNone_iff_eq_none] at h <;>
      simp [showGetTraktInfo, h]
  · simp [movieGetTraktInfo, hb, hc]

/-- Witness for the amended C5, instantiated with the summaries missing
only the tertiary artwork id: the movie variant resolves with the full
image-cascaded record despite the missing tertiary id. -/
theorem c5_id_check_failure_resolves_undefined_witness :
    (summaryNoTvdb.ids.imdb.isNone ∨ summaryNoTvdb.ids.tmdb.isNone
        ∨ summaryNoTvdb.ids.tvdb.isNone)
    ∧ movieNoTvdb.ids.tvdb.isNone
    ∧ (showGetTraktInfo (.ok none) (.ok none) (.ok tvImagesDe) (.ok fanartShowOk)
          = .error .typeError
       ∧ showGetTraktInfo (.ok (some summaryNoTvdb)) (.ok none) (.ok tvImagesDe) (.ok fanartShowOk)
          = .ok none
       ∧ movieGetTraktInfo 0 (.ok (some movieNoTvdb)) (.ok none) (.ok tvImagesDe)
            (.error (.api 404)) (.ok fanartPosterBackdrop)
          = .ok (some (addImages (.ok tvImagesDe) (.error (.api 404)) (.ok fanartPosterBackdrop)
              (mkMovieDraft 0 movieNoTvdb none)))) :=
  ⟨Or.inr (Or.inr rfl), rfl,
    c5_id_check_failure_resolves_undefined none (.ok tvImagesDe) (.ok fanartShowOk)
      summaryNoTvdb (Or.inr (Or.inr rfl)) 0 (.error (.api 404)) (.ok fanartPosterBackdrop)
      movieNoTvdb rfl rfl⟩

/-- C8 counterexample: with a successfully fetched summary, a rejected
"currently watching" call rejects the whole movie `getTraktInfo` (the
`await` re-throws into the catch block) instead of resolving with
`watching = 0`. -/
theorem c8_watching_rejection_rejects_fetch :
    movieGetTraktInfo 0 (.ok (some movieNoTvdb)) (.error (.api 500))
        (.ok tmdbPosterOnly) (.error (.api 404)) (.ok fanartPosterBackdrop)
      = .error (.wrapped "getTraktInfo") := by
  rfl

/-- C8 (amended): a watching call that resolves with no value degrades
`rating.watching` to `0` and the fetch still resolves with a record;
a watching call that rejects fails the whole fetch with the wrapped
error. -/
theorem c8_watching_null_degrades_to_zero (now : Int) (tm : TraktMovie)
    (tR : Except JsError TmdbImagesResp) (oR : Except JsError OmdbResp)
    (fR : Except JsError FanartMovieResp)
    (hi : tm.ids.imdb.isSome = true) (ht : tm.ids.tmdb.isSome = true) :
    (∃ m : MovieRec,
        movieGetTraktInfo now (.ok (some tm)) (.ok none) tR oR fR = .ok (some m)
          ∧ m.rating.watching = 0)
    ∧ ∀ e : JsError,
        movieGetTraktInfo now (.ok (some tm)) (.error e) tR oR fR
          = .error (wrapGetTraktInfoErr e) := by
  constructor
  · refine ⟨addImages tR oR fR (mkMovieDraft now tm none), ?_, ?_⟩
    · simp [movieGetTraktInfo, hi, ht]
    · rw [addImages_rating]
      rfl
  · intro e
    rfl

/-- Witness for the amended C8 at a concrete summary. -/
theorem c8_watching_null_degrades_to_zero_witness :
    movieNoTvdb.ids.imdb.isSome = true ∧ movieNoTvdb.ids.tmdb.isSome = true
    ∧ ((∃ m : MovieRec,
          movieGetTraktInfo 7 (.ok (some movieNoTvdb)) (.ok none) (.ok tmdbPosterOnly)
              (.error (.api 404)) (.ok fanartPosterBackdrop) = .ok (some m)
            ∧ m.rating.watching = 0)
        ∧ ∀ e : JsError,
            movieGetTraktInfo 7 (.ok (some movieNoTvdb)) (.error e) (.ok tmdbPosterOnly)
                (.error (.api 404)) (.ok fanartPosterBackdrop)
              = .error (wrapGetTraktInfoErr e)) :=
  ⟨rfl, rfl,
    c8_watching_null_degrades_to_zero 7 movieNoTvdb (.ok tmdbPosterOnly)
      (.error (.api 404)) (.ok fanartPosterBackdrop) rfl rfl⟩

/-- C9: when a stored movie document exists under the incoming record's
id, the written record carries the found document's `createdAt`,
`bookmarked`, `bookmarkedOn`, `watched`, `downloaded`, `downloading`
and `downloadedOn` verbatim, is persisted under the incoming id, and
every other field comes from the incoming record — with `torrents`
being the incoming torrents merged against the stored ones when the
stored document has a torrents array. -/
theorem c9_user_state_copied_from_found (movie : MovieRec) (store : MovieStore)
    (found : MovieRec) (h : store movie._id = some found) :
    ((_updateMovieInDb movie store).2 (_updateMovieInDb movie store).1._id
        = some (_updateMovieInDb movie store).1)
    ∧ (_updateMovieInDb movie store).1.bookmarked = found.bookmarked
    ∧ (_updateMovieInDb movie store).1.bookmarkedOn = found.bookmarkedOn
    ∧ (_updateMovieInDb movie store).1.watched = found.watched
    ∧ (_updateMovieInDb movie store).1.downloaded = found.downloaded
    ∧ (_updateMovieInDb movie store).1.downloading = found.downloading
    ∧ (_updateMovieInDb movie store).1.downloadedOn = found.downloadedOn
    ∧ (_updateMovieInDb movie store).1.createdAt = found.createdAt
    ∧ (_updateMovieInDb movie store).1._id = movie._id
    ∧ (_updateMovieInDb movie store).1.imdbId = movie.imdbId
    ∧ (_updateMovieInDb movie store).1.tmdbId = movie.tmdbId
    ∧ (_updateMovieInDb movie store).1.slug = movie.slug
    ∧ (_updateMovieInDb movie store).1.title = movie.title
    ∧ (_updateMovieInDb movie store).1.synopsis = movie.synopsis
    ∧ (_updateMovieInDb movie store).1.rating = movie.rating
    ∧ (_updateMovieInDb movie store).1.images = movie.images
    ∧ (_updateMovieInDb movie store).1.genres = movie.genres
    ∧ (_updateMovieInDb movie store).1.trailer = movie.trailer
    ∧ (_updateMovieInDb movie store).1.updatedAt = movie.updatedAt
    ∧ (_updateMovieInDb movie store).1.torrents
        = (match found.torrents with
           | some ft => some (_formatTorrents (movie.torrents.getD []) ft)
           | none => movie.torrents) := by
  simp only [_updateMovieInDb, h]
  cases found.torrents <;> simp [MovieStore.save]

/-- Witness for C9: a concrete stored document with user-state fields
differing from the incoming draft's. -/
theorem c9_user_state_copied_from_found_witness :
    storeC9 movieIncomingC9._id = some movieFoundC9
    ∧ (_updateMovieInDb movieIncomingC9 storeC9).1.bookmarked = movieFoundC9.bookmarked :=
  ⟨rfl,
    (c9_user_state_copied_from_found movieIncomingC9 storeC9 movieFoundC9 rfl).2.1⟩

/-- C10: on a TMDB TV-images response whose en-or-untagged poster list
is empty (and likewise for backdrops), `_getTmdbImages` throws a
`TypeError` dereferencing `file_path` before its own null-guard can
apply; `getImages` has no handler, so the rejection propagates, and the
legacy show `getTraktInfo` rejects the whole metadata fetch even though
the Fanart provider had a full set of images. -/
theorem c10_empty_filtered_tmdb_images_fail_show_fetch :
    _getTmdbImages (.ok tvImagesDe) = .error .typeError
    ∧ showGetImages (.ok tvImagesDe) (.ok fanartShowOk) = .error .typeError
    ∧ showGetTraktInfo (.ok (some summaryAllIds)) (.ok (some 3)) (.ok tvImagesDe) (.ok fanartShowOk)
        = .error .typeError := by
  refine ⟨rfl, rfl, rfl⟩

end PctScraper
